import Mathlib

/-!
Shallow embedding of the KACO inverter frame-decoding engine
(`custom_components/kaco_inverter/client/fields.py` and `client.py`).

Frames are byte lists (`Bytes := List Nat`, each entry `< 256` in practice).
Field `read` methods become functions `Bytes → Nat → ... → Except PyError _`;
the client's mutable connection state (`_is_000xi`,
`_infered_standard_fields`, the serial port) becomes an explicit
`ClientState` record threaded through the operations.  The serial port is
modelled as the queue of chunks that `read_until(b"\r")` will deliver, in
order; a read on an exhausted queue yields the empty chunk (a timeout in
pySerial returns the bytes received so far, possibly none).

Python exceptions are modelled by `PyError`: `ProtocolException` carries a
structured `Err` describing the message contents, while `AssertionError`,
`TypeError` and `KeyError` (which the library can also raise) are separate
constructors, since only `ProtocolException` is the documented failure
surface and only it is caught by the family-inference `except` clause.
-/

deriving instance DecidableEq for Except

namespace Kaco

abbrev Bytes := List Nat

/-- Python `frame[a:b]` for non-negative indices (clamping, empty when `b ≤ a`). -/
def byteSlice (frame : Bytes) (a b : Nat) : Bytes :=
  (frame.drop a).take (b - a)

/-- Decoded field values.  Floating-point quantities are kept as the
(whitespace-stripped) literal that Python's `float` accepted, since IEEE
arithmetic is not needed for any property proved here. -/
inductive Value where
  | int (n : Int)
  | float (s : String)
  | str (s : String)
  | annotated (v : Value) (quantity description : String)
  deriving Repr, DecidableEq

/-- Structured contents of a `ProtocolException` message. -/
inductive Err where
  | endOfFrame
  | expectedChar (c : Nat) (got : Bytes)
  | expectedSpaceEof
  | expectedAscii (got : Bytes)
  | expectedInt (got : Bytes)
  | expectedFloat (got : Bytes)
  | precisionMismatch (precision : Nat) (name : String)
  | cosPhiSuffix (got : Bytes)
  | checksumMismatch (expected actual : Nat)
  | expectedHex (got : Bytes)
  | crcMismatch (expected : Int) (actual : Nat)
  | expectedEndOfFrame
  | unresolvableSchemaFor (t : Value)
  | elementCountMismatch (expected : Nat) (t : Value) (actual : Value)
  | unexpectedCommandReadings (got : String)
  | unexpectedCommandSerial (got : String)
  | addressMismatch (expected got : Int)
  | serialPortError
  deriving Repr, DecidableEq

/-- Exception kinds the Python code can raise.  `protocol` is
`ProtocolException`; the others are built-in Python exceptions. -/
inductive PyError where
  | protocol (e : Err)
  | assertionError
  | typeError
  | keyError (k : String)
  deriving Repr, DecidableEq

/-- Bytes that Python's `str.isspace` (hence `str.lstrip`/`str.strip`)
treats as whitespace, restricted to the ASCII range. -/
def pyWsBytes : List Nat := [9, 10, 11, 12, 13, 28, 29, 30, 31, 32]

def isPyWsChar (c : Char) : Bool := pyWsBytes.contains c.toNat

def stripWsLeft (s : List Char) : List Char := s.dropWhile isPyWsChar

/-- Python `str.strip()` (both ends) on an ASCII string. -/
def stripWs (s : List Char) : List Char :=
  ((s.dropWhile isPyWsChar).reverse.dropWhile isPyWsChar).reverse

/-- Turn bytes into the string they decode to; only meaningful after an
ASCII check. -/
def bytesToString (bs : Bytes) : String := String.mk (bs.map Char.ofNat)

/-- Python `bytes.decode("ASCII")`: succeeds exactly when every byte is
below 128. -/
def decodeAscii (bs : Bytes) : Option String :=
  if bs.all (· < 128) then some (bytesToString bs) else none

def digitsToNat (s : List Char) : Nat :=
  s.foldl (fun acc c => 10 * acc + (c.toNat - 48)) 0

def allDigits1 (s : List Char) : Bool := !s.isEmpty && s.all Char.isDigit

/-- Model of Python `int(str)`: optional surrounding whitespace, optional
sign, then at least one ASCII digit.  (Digit-group underscores, accepted by
CPython since 3.6, are not modelled; they cannot occur in the frames the
theorems below evaluate.) -/
def pyIntOfChars (s : List Char) : Option Int :=
  match stripWs s with
  | [] => none
  | '+' :: rest => if allDigits1 rest then some (digitsToNat rest) else none
  | '-' :: rest => if allDigits1 rest then some (-(digitsToNat rest : Int)) else none
  | t => if allDigits1 t then some (digitsToNat t) else none

def hexDigitVal (c : Char) : Option Nat :=
  if c.isDigit then some (c.toNat - 48)
  else if 'a' ≤ c ∧ c ≤ 'f' then some (c.toNat - 87)
  else if 'A' ≤ c ∧ c ≤ 'F' then some (c.toNat - 55)
  else none

def allHex (s : List Char) : Bool := !s.isEmpty && s.all (fun c => (hexDigitVal c).isSome)

def hexToNat (s : List Char) : Nat :=
  s.foldl (fun acc c => 16 * acc + ((hexDigitVal c).getD 0)) 0

/-- Model of Python `int(str, 16)`: optional surrounding whitespace,
optional sign, optional `0x`/`0X`, then at least one hex digit. -/
def pyHexOfChars (s : List Char) : Option Int :=
  let core : List Char → Option Nat := fun t =>
    match t with
    | '0' :: 'x' :: rest => if allHex rest then some (hexToNat rest) else none
    | '0' :: 'X' :: rest => if allHex rest then some (hexToNat rest) else none
    | t => if allHex t then some (hexToNat t) else none
  match stripWs s with
  | [] => none
  | '+' :: rest => (core rest).map Int.ofNat
  | '-' :: rest => (core rest).map (fun n => -(n : Int))
  | t => (core t).map Int.ofNat

def pyFloatExpDigits : List Char → Bool
  | '+' :: rest => allDigits1 rest
  | '-' :: rest => allDigits1 rest
  | rest => allDigits1 rest

def pyFloatExpPart : List Char → Bool
  | [] => true
  | 'e' :: rest => pyFloatExpDigits rest
  | 'E' :: rest => pyFloatExpDigits rest
  | _ => false

/-- Model of Python `float(str)` acceptance: optional surrounding
whitespace, optional sign, then `inf`/`infinity`/`nan` (case-insensitive)
or a decimal literal with at least one digit and an optional exponent. -/
def pyFloatAccepts (s : List Char) : Bool :=
  let t := stripWs s
  let t := match t with
    | '+' :: rest => rest
    | '-' :: rest => rest
    | t => t
  let low := t.map Char.toLower
  if low == ['i', 'n', 'f'] || low == ['i', 'n', 'f', 'i', 'n', 'i', 't', 'y'] ||
      low == ['n', 'a', 'n'] then
    true
  else
    let ip := t.takeWhile Char.isDigit
    let r1 := t.dropWhile Char.isDigit
    match r1 with
    | '.' :: rest =>
      let fp := rest.takeWhile Char.isDigit
      let r2 := rest.dropWhile Char.isDigit
      (!ip.isEmpty || !fp.isEmpty) && pyFloatExpPart r2
    | _ => !ip.isEmpty && pyFloatExpPart r1

/-- The output record: a Python `dict` as an insertion-ordered association
list with at most one entry per key. -/
abbrev Dict := List (String × Value)

def dictSet (d : Dict) (k : String) (v : Value) : Dict :=
  if d.any (fun p => p.1 == k) then
    d.map (fun p => if p.1 == k then (k, v) else p)
  else
    d ++ [(k, v)]

def dictGet (d : Dict) (k : String) : Option Value :=
  (d.find? (fun p => p.1 == k)).map Prod.snd

/-- Byte list of an ASCII string literal (for writing concrete frames). -/
def strBytes (s : String) : Bytes := s.toList.map Char.toNat

/-! ## Field primitives (`fields.py`) -/

/-- `expect_min_remaining_frame_length`: the frame must still hold
`min_remaining_length` bytes at `position`. -/
def expectMinRemainingFrameLength (frame : Bytes) (position minRemainingLength : Nat) :
    Except PyError Unit :=
  if frame.length < position + minRemainingLength then
    .error (.protocol .endOfFrame)
  else
    .ok ()

/-- `_expect_char`: the byte at `position` must equal `c`.  Every call site
establishes the bound first, so the out-of-range default is never hit. -/
def expectChar (frame : Bytes) (position : Nat) (c : Nat) : Except PyError Unit :=
  if frame.getD position 0 = c then
    .ok ()
  else
    .error (.protocol (.expectedChar c (byteSlice frame position (position + 1))))

/-- Kinds of `_ValueField` subclasses. -/
inductive VKind where
  | intK
  | floatK (precision : Option Nat)
  | cosPhiK (precision : Option Nat)
  | strK
  deriving Repr, DecidableEq

/-- Constructor data of a `_ValueField` (name, optional fixed length,
optional quantity and description used in annotated mode). -/
structure VField where
  kind : VKind
  name : String
  length : Option Nat
  quantity : Option String
  description : Option String
  deriving Repr, DecidableEq

/-- The closed set of field variants appearing in the frame schemas. -/
inductive Field where
  | start
  | value (f : VField)
  | legacyChecksum
  | legacyStop
  | crcAndStop
  | genericPayload
  deriving Repr, DecidableEq

/-- `_StringField.parse`: strip leading null bytes, decode as ASCII
(failure reports the original bytes), then strip leading whitespace. -/
def stringFieldParse (bs : Bytes) : Except PyError String :=
  match decodeAscii (bs.dropWhile (· = 0)) with
  | none => .error (.protocol (.expectedAscii bs))
  | some s => .ok (String.mk (stripWsLeft s.toList))

/-- `_IntField.parse`: decode as ASCII, strip leading whitespace, parse as
a Python `int`. -/
def intFieldParse (bs : Bytes) : Except PyError Int :=
  match decodeAscii bs with
  | none => .error (.protocol (.expectedInt bs))
  | some s =>
    match pyIntOfChars (stripWsLeft s.toList) with
    | none => .error (.protocol (.expectedInt bs))
    | some n => .ok n

/-- `_FloatField.parse`: decode as ASCII, strip leading whitespace, check
the decimal point sits exactly `precision` digits from the end when a
precision is given, then parse as a Python `float`. -/
def floatFieldParse (name : String) (precision : Option Nat) (bs : Bytes) :
    Except PyError Value :=
  match decodeAscii bs with
  | none => .error (.protocol (.expectedFloat bs))
  | some s0 =>
    let s := stripWsLeft s0.toList
    let precisionOk : Except PyError Unit :=
      match precision with
      | none => .ok ()
      | some p =>
        if s.length < p + 2 ∨ ¬ s.getD (s.length - 1 - p) ' ' = '.' then
          .error (.protocol (.precisionMismatch p name))
        else
          .ok ()
    match precisionOk with
    | .error e => .error e
    | .ok _ =>
      if pyFloatAccepts s then
        .ok (.float (String.mk (stripWs s)))
      else
        .error (.protocol (.expectedFloat bs))

/-- `_CosPhiField.parse`: the last byte must be one of `c`, `i`, `o`
(an empty field has no last byte and is rejected); the remaining bytes are
parsed as a float. -/
def cosPhiFieldParse (name : String) (precision : Option Nat) (bs : Bytes) :
    Except PyError Value :=
  let lastSlice := bs.drop (bs.length - 1)
  if lastSlice = [99] ∨ lastSlice = [105] ∨ lastSlice = [111] then
    floatFieldParse name precision bs.dropLast
  else
    .error (.protocol (.cosPhiSuffix lastSlice))

/-- Variable-width scan of `_ValueField.read`: starting at `position`
(which holds the delimiter space), find the index of the first space that
follows a run of non-space bytes; `none` models the for-else branch
(end of frame reached first). -/
def scanFieldEndAux : List Nat → Nat → Bool → Option Nat
  | [], _, _ => none
  | b :: rest, i, foundNonSpace =>
    if b = 32 then
      if foundNonSpace then some i else scanFieldEndAux rest (i + 1) foundNonSpace
    else
      scanFieldEndAux rest (i + 1) true

/-- Truthiness of the optional `_quantity` / `_description` strings
(`None` and the empty string are falsy). -/
def optTruthy : Option String → Bool
  | some s => !(s == "")
  | none => false

def parseByKind (f : VField) (bs : Bytes) : Except PyError Value :=
  match f.kind with
  | .intK => (intFieldParse bs).map Value.int
  | .floatK p => floatFieldParse f.name p bs
  | .cosPhiK p => cosPhiFieldParse f.name p bs
  | .strK => (stringFieldParse bs).map Value.str

/-- `_ValueField.read`: check the space delimiter, determine the field end
(fixed length or variable-width scan), parse the value bytes, optionally
wrap into an `AnnotatedValue`, store under the field name and return the
new cursor. -/
def valueFieldRead (f : VField) (frame : Bytes) (position : Nat) (destDict : Dict)
    (annotate : Bool) : Except PyError (Nat × Dict) := do
  let startPos := position + 1
  let endPos ← (match f.length with
    | none => do
      expectMinRemainingFrameLength frame position 2
      expectChar frame position 32
      match scanFieldEndAux (frame.drop position) position false with
      | some e => pure e
      | none => throw (.protocol .expectedSpaceEof)
    | some len => do
      expectMinRemainingFrameLength frame position (len + 1)
      expectChar frame position 32
      pure (startPos + len))
  let fieldValueBytes := byteSlice frame startPos endPos
  let fieldValue ← parseByKind f fieldValueBytes
  let fieldValue :=
    if annotate && optTruthy f.description && optTruthy f.quantity then
      Value.annotated fieldValue (f.quantity.getD "") (f.description.getD "")
    else
      fieldValue
  pure (endPos, dictSet destDict f.name fieldValue)

/-- `LegacyChecksumField.read`: the stored byte at `position + 1` must
equal the byte sum of `frame[1 : position + 1]` modulo 256.  Note the
summed span starts right after the leading newline (so it covers the `*`,
address and command of the start marker) and ends with the checksum
field's own space delimiter. -/
def legacyChecksumFieldRead (frame : Bytes) (position : Nat) : Except PyError Nat :=
  match expectMinRemainingFrameLength frame position 2 with
  | .error e => .error e
  | .ok _ =>
    match expectChar frame position 32 with
    | .error e => .error e
    | .ok _ =>
      let exceptedChecksum := frame.getD (position + 1) 0
      let actualChecksum := (byteSlice frame 1 (position + 1)).sum % 256
      if ¬ actualChecksum = exceptedChecksum then
        .error (.protocol (.checksumMismatch exceptedChecksum actualChecksum))
      else
        .ok (position + 2)

/-- `_StartField.read`: `assert position == 0`, then check the newline and
asterisk.  The subsequent ASCII check decodes `frame[2:position]`, which
with `position = 0` is always the empty slice, so the address and command
bytes are never actually inspected. -/
def startFieldRead (frame : Bytes) (position : Nat) : Except PyError Nat := do
  let length := 5
  if ¬ position = 0 then throw .assertionError
  expectMinRemainingFrameLength frame position length
  expectChar frame position 10
  expectChar frame (position + 1) 42
  match decodeAscii (byteSlice frame 2 position) with
  | some _ => pure ()
  | none => throw (.protocol (.expectedAscii (byteSlice frame 2 position)))
  pure (position + length)

/-- `_LegacyStopField.read`: a `\r` byte, and nothing after it. -/
def legacyStopFieldRead (frame : Bytes) (position : Nat) : Except PyError Nat := do
  expectMinRemainingFrameLength frame position 1
  expectChar frame position 13
  if frame.length > position + 1 then throw (.protocol .expectedEndOfFrame)
  pure (position + 1)

/-- One bit step of CRC16/X25 (reflected polynomial 0x8408). -/
def crcBit (c : Nat) : Nat :=
  if c % 2 = 1 then (c / 2) ^^^ 0x8408 else c / 2

/-- One byte step of CRC16/X25. -/
def crcByteStep (c b : Nat) : Nat :=
  crcBit (crcBit (crcBit (crcBit (crcBit (crcBit (crcBit (crcBit (c ^^^ b))))))))

/-- CRC16/X25 (the `crc.Crc16.X25` configuration: init 0xFFFF, reflected,
final xor 0xFFFF), as used by `_crc_calculator.checksum`. -/
def crc16x25 (data : Bytes) : Nat :=
  (data.foldl crcByteStep 0xFFFF) ^^^ 0xFFFF

/-- The CRC value a `_CrcAndStopField` reads from the frame: four bytes at
`position + 1` decoded as ASCII and parsed as a hex integer. -/
def storedCrc (frame : Bytes) (position : Nat) : Option Int :=
  (decodeAscii (byteSlice frame (position + 1) (position + 5))).bind
    (fun s => pyHexOfChars s.toList)

/-- `_CrcAndStopField.read`: space, four hex digits, CRC check over
`frame[1 : position + 1]`, `\r`, end of frame.  The Python method has no
`return` statement, so it yields `None` instead of a cursor position;
this is modelled by the result `Option Nat` being `none`. -/
def crcAndStopFieldRead (frame : Bytes) (position : Nat) :
    Except PyError (Option Nat) :=
  match expectMinRemainingFrameLength frame position 6 with
  | .error e => .error e
  | .ok _ =>
    match expectChar frame position 32 with
    | .error e => .error e
    | .ok _ =>
      match storedCrc frame position with
      | none => .error (.protocol (.expectedHex (byteSlice frame (position + 1)
          (position + 5))))
      | some expectedCrc =>
        let actualCrc := crc16x25 (byteSlice frame 1 (position + 1))
        if ¬ (actualCrc : Int) = expectedCrc then
          .error (.protocol (.crcMismatch expectedCrc actualCrc))
        else
          match expectChar frame (position + 5) 13 with
          | .error e => .error e
          | .ok _ =>
            if frame.length > position + 6 then
              .error (.protocol .expectedEndOfFrame)
            else
              .ok none

/-! ## Frame schemas (`fields.py`) -/

def intV (name : String) (length : Option Nat) (quantity description : Option String) :
    VField :=
  { kind := .intK, name := name, length := length, quantity := quantity,
    description := description }

def floatV (name : String) (length precision : Option Nat)
    (quantity description : Option String) : VField :=
  { kind := .floatK precision, name := name, length := length, quantity := quantity,
    description := description }

def cosPhiV (name : String) (length precision : Option Nat)
    (quantity description : Option String) : VField :=
  { kind := .cosPhiK precision, name := name, length := length, quantity := quantity,
    description := description }

def strV (name : String) (length : Option Nat) (quantity description : Option String) :
    VField :=
  { kind := .strK, name := name, length := length, quantity := quantity,
    description := description }

/-- Schema `FIELDS_SERIES_00_02` (KACO standard legacy protocol). -/
def FIELDS_SERIES_00_02 : List Field := [
  .start,
  .value (intV "status" (some 3) none none),
  .value (floatV "dc_voltage" (some 5) (some 1) (some "V") (some "Generator Voltage")),
  .value (floatV "dc_current" (some 5) (some 2) (some "A") (some "Generator Current")),
  .value (intV "dc_power" (some 5) (some "W") (some "Generator Power")),
  .value (floatV "ac_voltage" (some 5) (some 1) (some "V") (some "Grid Voltage")),
  .value (floatV "ac_current" (some 5) (some 2) (some "A")
    (some "Grid- / Grid-feeding Current")),
  .value (intV "ac_power" (some 5) (some "W") (some "Delivered (fed-in) Power")),
  .value (intV "device_temperature" (some 3) (some "°C") (some "Device Temperature")),
  .value (intV "daily_yield" (some 6) (some "Wh") (some "Daily Yield")),
  .legacyChecksum,
  .value (strV "inverter_type" (some 6) none none),
  .legacyStop]

/-- Schema `FIELDS_SERIES_000XI` (per-unit frames of the 000xi family). -/
def FIELDS_SERIES_000XI : List Field := [
  .start,
  .value (intV "status" (some 3) none none),
  .value (floatV "dc_voltage" (some 5) (some 1) (some "V") (some "Generator Voltage")),
  .value (floatV "dc_current" (some 5) (some 2) (some "A") (some "Generator Current")),
  .value (intV "dc_power" (some 6) (some "W") (some "Generator Power")),
  .value (floatV "ac_voltage" (some 5) (some 1) (some "V") (some "Grid Voltage")),
  .value (floatV "ac_current" (some 5) (some 2) (some "A")
    (some "Grid- / Grid-feeding Current")),
  .value (intV "ac_power" (some 6) (some "W") (some "Delivered (fed-in) Power")),
  .value (intV "device_temperature" (some 2) (some "°C") (some "Device Temperature")),
  .value (intV "daily_yield" (some 6) (some "Wh") (some "Daily Yield")),
  .legacyChecksum,
  .value (strV "inverter_type" (some 4) none none),
  .legacyStop]

/-- Schema `FIELDS_SERIES_XP` (legacy XP family, with trailing total yield). -/
def FIELDS_SERIES_XP : List Field := [
  .start,
  .value (intV "status" (some 3) none none),
  .value (floatV "dc_voltage" (some 5) (some 1) (some "V") (some "Generator Voltage")),
  .value (floatV "dc_current" (some 6) (some 2) (some "A") (some "Generator Current")),
  .value (intV "dc_power" (some 6) (some "W") (some "Generator Power")),
  .value (floatV "ac_voltage" (some 5) (some 1) (some "V") (some "Grid Voltage")),
  .value (floatV "ac_current" (some 6) (some 2) (some "A")
    (some "Grid- / Grid-feeding Current")),
  .value (intV "ac_power" (some 6) (some "W") (some "Delivered (fed-in) Power")),
  .value (intV "device_temperature" (some 2) (some "°C") (some "Device Temperature")),
  .value (intV "daily_yield" (some 7) (some "Wh") (some "Daily Yield")),
  .legacyChecksum,
  .value (strV "inverter_type" (some 6) none none),
  .value (intV "total_yield" (some 9) (some "kWh") (some "Total Yield")),
  .legacyStop]

/-- Schema `FIELDS_SERIAL` (serial number query, generic protocol). -/
def FIELDS_SERIAL : List Field := [
  .start,
  .value (strV "serial_number" none none none),
  .crcAndStop]

/-- `_build_mpp_fields`. -/
def buildMppFields (index : Nat) : List VField := [
  floatV ("dc_mppt" ++ toString index ++ "_voltage") none none (some "V")
    (some ("DC Voltage of MPPT" ++ toString index)),
  floatV ("dc_mppt" ++ toString index ++ "_current") none none (some "A")
    (some ("DC Current of MPPT" ++ toString index)),
  intV ("dc_mppt" ++ toString index ++ "_power") none (some "W")
    (some ("DC Power of MPPT" ++ toString index))]

/-- `_DC_FIELDS`. -/
def DC_FIELDS : List VField := [
  floatV "dc_voltage" none none (some "V") (some "DC Voltage"),
  floatV "dc_current" none none (some "A") (some "DC Current")]

/-- `_AC_FIELDS`. -/
def AC_FIELDS : List VField := [
  floatV "ac_phase1_voltage" none none (some "V") (some "AC Voltage of Phase 1"),
  floatV "ac_phase1_current" none none (some "A") (some "AC Current of Phase 1"),
  floatV "ac_phase2_voltage" none none (some "V") (some "AC Voltage of Phase 2"),
  floatV "ac_phase2_current" none none (some "A") (some "AC Current of Phase 2"),
  floatV "ac_phase3_voltage" none none (some "V") (some "AC Voltage of Phase 3"),
  floatV "ac_phase3_current" none none (some "A") (some "AC Current of Phase 3")]

/-- `_COMMON_POWER_FIELDS`. -/
def COMMON_POWER_FIELDS : List VField := [
  intV "dc_power" none (some "W") (some "DC Power"),
  intV "ac_power" none (some "W") (some "AC Power")]

/-- `_COMMON_MISC_FIELDS`. -/
def COMMON_MISC_FIELDS : List VField := [
  cosPhiV "cos_phi" none none none none,
  floatV "device_temperature" none none (some "°C")
    (some "Circuit Board Temperature"),
  intV "daily_yield" none (some "Wh") (some "Daily Yield")]

/-- `_GENERIC_SCHMEMA_331_TYPES`. -/
def GENERIC_SCHMEMA_331_TYPES : List String := ["160TR", "180TR"]

/-- `_GENERIC_SCHMEMA_332_TYPES`. -/
def GENERIC_SCHMEMA_332_TYPES : List String := [
  "30L11", "30L12", "35L12", "37L12", "40L12", "46L12", "50L12",
  "30L32", "40L32", "50L32", "65L32", "75L32", "86L32", "90L32",
  "100L32", "150L32", "200L32",
  "3X24", "5X24", "8X24", "10X24", "12X24", "15X24", "20X24"]

/-- `_GENERIC_SCHMEMA_333_TYPES`. -/
def GENERIC_SCHMEMA_333_TYPES : List String := [
  "375TL", "390TL", "400TL", "480TL", "600TL", "720TL",
  "29kH3P", "50KH3P", "50kH4", "50kRPO", "60kH3P",
  "BG0501", "BG50TL", "BQ50TL", "92G14", "110G15", "137G16"]

/-- `_GENERIC_SCHMEMA_334_TYPES`. -/
def GENERIC_SCHMEMA_334_TYPES : List String := [
  "360M1", "390M150kH4P", "100kTR", "200kTR", "200kTL",
  "250kTR250kTL", "350kTL", "32kH4P", "40kH4P"]

/-- `_GENERIC_SCHMEMA_335_TYPES`. -/
def GENERIC_SCHMEMA_335_TYPES : List String := [
  "87N13", "92N14", "100N13", "105N14", "110N15", "125N15",
  "125N16", "137N16", "150N17", "155N16", "165N17"]

/-- `_resolve_subfields`: table-driven sub-schema lookup.  A set membership
test against a non-string value is simply false in Python, so any
non-string `inverter_type` value also ends in the failure branch. -/
def resolveSubfields (inverterType : Value) : Except PyError (List VField) :=
  match inverterType with
  | .str t =>
    if GENERIC_SCHMEMA_331_TYPES.contains t ∨ GENERIC_SCHMEMA_333_TYPES.contains t then
      .ok (buildMppFields 1 ++ buildMppFields 2 ++ buildMppFields 3 ++
        AC_FIELDS ++ COMMON_POWER_FIELDS ++ COMMON_MISC_FIELDS)
    else if GENERIC_SCHMEMA_332_TYPES.contains t then
      .ok (buildMppFields 1 ++ buildMppFields 2 ++
        AC_FIELDS ++ COMMON_POWER_FIELDS ++ COMMON_MISC_FIELDS)
    else if GENERIC_SCHMEMA_334_TYPES.contains t then
      .ok (DC_FIELDS ++ AC_FIELDS ++ COMMON_POWER_FIELDS ++ COMMON_MISC_FIELDS)
    else if GENERIC_SCHMEMA_335_TYPES.contains t then
      .ok (DC_FIELDS ++ AC_FIELDS ++
        [intV "dc_power" none (some "W") (some "DC Power"),
         floatV "ac_power" none none (some "W") (some "AC Power"),
         floatV "ac_frequency" none none (some "Hz") (some "AC Frequency")] ++
        COMMON_MISC_FIELDS)
    else
      .error (.protocol (.unresolvableSchemaFor inverterType))
  | _ => .error (.protocol (.unresolvableSchemaFor inverterType))

/-- Sequential `read` over a list of value fields, threading cursor and
dict (the loop body of `_GenericPayloadField.read`). -/
def readVFields : List VField → Bytes → Nat → Dict → Bool → Except PyError (Nat × Dict)
  | [], _, position, destDict, _ => .ok (position, destDict)
  | f :: rest, frame, position, destDict, annotate => do
    let (position', destDict') ← valueFieldRead f frame position destDict annotate
    readVFields rest frame position' destDict' annotate

/-- `_GenericPayloadField.read`: look up the envelope's declared element
count and inverter type, resolve the sub-schema, require
`len(subfields) + 3 == number_of_elements` (a non-int stored count is
never equal, as in Python), then decode the sub-fields in place. -/
def genericPayloadFieldRead (frame : Bytes) (position : Nat) (destDict : Dict)
    (annotate : Bool) : Except PyError (Nat × Dict) :=
  match dictGet destDict "number_of_elements" with
  | none => .error (.keyError "number_of_elements")
  | some numberOfElements =>
    match dictGet destDict "inverter_type" with
    | none => .error (.keyError "inverter_type")
    | some inverterType =>
      match resolveSubfields inverterType with
      | .error e => .error e
      | .ok subfields =>
        if ¬ numberOfElements = Value.int (subfields.length + 3) then
          .error (.protocol (.elementCountMismatch (subfields.length + 3)
            inverterType numberOfElements))
        else
          readVFields subfields frame position destDict annotate

/-- `BASE_FIELDS_GENERIC` (generic protocol envelope). -/
def BASE_FIELDS_GENERIC : List Field := [
  .start,
  .value (intV "number_of_elements" none none none),
  .value (strV "inverter_type" none none none),
  .value (intV "status" none none none),
  .genericPayload,
  .crcAndStop]

/-- Dispatch of the polymorphic `_Field.read`.  The result position is an
`Option Nat` because `_CrcAndStopField.read` returns `None`. -/
def fieldRead (f : Field) (frame : Bytes) (position : Nat) (destDict : Dict)
    (annotate : Bool) : Except PyError (Option Nat × Dict) :=
  match f with
  | .start => (startFieldRead frame position).map (fun p => (some p, destDict))
  | .value vf => (valueFieldRead vf frame position destDict annotate).map
      (fun r => (some r.1, r.2))
  | .legacyChecksum => (legacyChecksumFieldRead frame position).map
      (fun p => (some p, destDict))
  | .legacyStop => (legacyStopFieldRead frame position).map (fun p => (some p, destDict))
  | .crcAndStop => (crcAndStopFieldRead frame position).map (fun o => (o, destDict))
  | .genericPayload => (genericPayloadFieldRead frame position destDict annotate).map
      (fun r => (some r.1, r.2))

/-! ## Client (`client.py`) -/

/-- The serial transport, modelled as the queue of chunks that successive
`read_until(b"\r")` calls deliver. -/
abbrev Port := List Bytes

/-- One `read_until(b"\r")` call: pop the next chunk, or deliver the empty
chunk on an exhausted queue (pySerial returns what arrived before the
timeout, possibly nothing). -/
def readUntil (port : Port) : Bytes × Port :=
  match port with
  | [] => ([], [])
  | chunk :: rest => (chunk, rest)

/-- The state of a `KacoInverterClient`: the configured address, the two
cached protocol-family facts (`_is_000xi`, `_infered_standard_fields`),
the transport queue, and — for stating which commands a call issues — the
log of commands written so far. -/
structure ClientState where
  address : Int
  is000xi : Bool
  inferredStandardFields : Option (List Field)
  port : Port
  sent : List String
  deriving Repr, DecidableEq

/-- `_send_command`: write the command (logged in `sent`), read one chunk,
validate the 5-byte response header (ASCII, echoed address equals the
configured one) and return the echoed command character together with the
raw response. -/
def sendCommand (st : ClientState) (command : String) :
    Except PyError (String × Bytes) × ClientState :=
  let (response, port') := readUntil st.port
  let st' := { st with port := port', sent := st.sent ++ [command] }
  if response.length < 5 then
    (.error (.protocol .endOfFrame), st')
  else
    let fieldValueBytes := response.take 5
    match decodeAscii fieldValueBytes with
    | none => (.error (.protocol (.expectedAscii fieldValueBytes)), st')
    | some header =>
      match pyIntOfChars ((header.toList.drop 2).take 2) with
      | none => (.error (.protocol (.expectedAscii fieldValueBytes)), st')
      | some address =>
        let cmd := String.mk ((header.toList.drop 4).take 1)
        if ¬ address = st.address then
          (.error (.protocol (.addressMismatch st.address address)), st')
        else
          (.ok (cmd, response), st')

def isLegacyChecksumField : Field → Bool
  | .legacyChecksum => true
  | _ => false

/-- The loop of `_parse_fields`.  The cursor is an `Option Nat` because
`_CrcAndStopField.read` returns `None`; feeding that `None` into a further
field's `read` would be a Python `TypeError` (never reached by the actual
schemas, where the CRC field is last).  After each field, if the returned
cursor equals the buffered frame length and the field was the legacy
checksum, one more chunk is read from the transport and appended. -/
def parseFieldsAux (port : Port) (fields : List Field) (message : Bytes)
    (position : Option Nat) (dataDict : Dict) (annotate : Bool) :
    Except PyError Dict × Port :=
  match fields with
  | [] => (.ok dataDict, port)
  | field :: rest =>
    match position with
    | none => (.error .typeError, port)
    | some p =>
      match fieldRead field message p dataDict annotate with
      | .error e => (.error e, port)
      | .ok (newPosition, dataDict') =>
        if (newPosition == some message.length) && isLegacyChecksumField field then
          let (chunk, port') := readUntil port
          parseFieldsAux port' rest (message ++ chunk) newPosition dataDict' annotate
        else
          parseFieldsAux port rest message newPosition dataDict' annotate

/-- `_parse_fields`: run the schema over the message starting at cursor 0
with an empty dict, threading the transport for split-frame recovery. -/
def parseFields (port : Port) (fields : List Field) (message : Bytes)
    (annotate : Bool) : Except PyError Dict × Port :=
  parseFieldsAux port fields message (some 0) [] annotate

/-- The inference branch of `_handle_kaco_standard_readings`: try
`FIELDS_SERIES_00_02`; if it raises a `ProtocolException`, try
`FIELDS_SERIES_XP` (on the transport state the first attempt left
behind); cache whichever schema returned successfully. -/
def inferStandardFields (st : ClientState) (message : Bytes) (annotate : Bool) :
    Except PyError Dict × ClientState :=
  match parseFields st.port FIELDS_SERIES_00_02 message annotate with
  | (.ok dataDict, port') =>
    (.ok dataDict,
      { st with port := port', inferredStandardFields := some FIELDS_SERIES_00_02 })
  | (.error (.protocol _), port') =>
    match parseFields port' FIELDS_SERIES_XP message annotate with
    | (.ok dataDict, port'') =>
      (.ok dataDict,
        { st with port := port'', inferredStandardFields := some FIELDS_SERIES_XP })
    | (.error e, port'') => (.error e, { st with port := port'' })
  | (.error e, port') => (.error e, { st with port := port' })

/-- `_handle_kaco_standard_readings`: decode with the cached schema when
one is cached (`if self._infered_standard_fields:` — Python truthiness, so
an empty cached tuple would count as absent), else infer it. -/
def handleKacoStandardReadings (st : ClientState) (message : Bytes) (annotate : Bool) :
    Except PyError Dict × ClientState :=
  match st.inferredStandardFields with
  | some fs =>
    if fs.isEmpty then
      inferStandardFields st message annotate
    else
      let (r, port') := parseFields st.port fs message annotate
      (r, { st with port := port' })
  | none => inferStandardFields st message annotate

/-- One iteration of the `_query_000xi_readings` loop for sub-unit
`index`: send the sub-query, `assert` the echoed command equals it (a bare
Python `assert`, hence `AssertionError` on mismatch), decode with the
000xi schema and merge the result under `index`-prefixed keys. -/
def query000xiStep (st : ClientState) (annotate : Bool) (index : String)
    (dataDict : Dict) : Except PyError Dict × ClientState :=
  match sendCommand st index with
  | (.error e, st') => (.error e, st')
  | (.ok (responseCommand, message), st') =>
    if ¬ responseCommand = index then
      (.error .assertionError, st')
    else
      match parseFields st'.port FIELDS_SERIES_000XI message annotate with
      | (.error e, port') => (.error e, { st' with port := port' })
      | (.ok subDataDict, port') =>
        (.ok (subDataDict.foldl
            (fun d kv => dictSet d (index ++ "_" ++ kv.1) kv.2) dataDict),
          { st' with port := port' })

/-- `_query_000xi_readings`: three sub-queries for units 1–3, then the
synthesized `inverter_type` (`3x` + unit 1's type minus its last
character); `_is_000xi` is set only after all of that succeeded. -/
def query000xiReadings (st : ClientState) (annotate : Bool) :
    Except PyError Dict × ClientState :=
  match query000xiStep st annotate "1" [] with
  | (.error e, st1) => (.error e, st1)
  | (.ok d1, st1) =>
    match query000xiStep st1 annotate "2" d1 with
    | (.error e, st2) => (.error e, st2)
    | (.ok d2, st2) =>
      match query000xiStep st2 annotate "3" d2 with
      | (.error e, st3) => (.error e, st3)
      | (.ok d3, st3) =>
        match dictGet d3 "1_inverter_type" with
        | none => (.error (.keyError "1_inverter_type"), st3)
        | some (.str s) =>
          (.ok (dictSet d3 "inverter_type"
              (.str ("3x" ++ String.mk s.toList.dropLast))),
            { st3 with is000xi := true })
        | some _ => (.error .typeError, st3)

/-- `_handle_generic_readings`. -/
def handleGenericReadings (st : ClientState) (message : Bytes) (annotate : Bool) :
    Except PyError Dict × ClientState :=
  let (r, port') := parseFields st.port BASE_FIELDS_GENERIC message annotate
  (r, { st with port := port' })

/-- `query_readings`: go straight to the 000xi path when that state is
cached; otherwise send `"0"` and dispatch on the echoed command. -/
def queryReadings (st : ClientState) (annotate : Bool) :
    Except PyError Dict × ClientState :=
  if st.is000xi then
    query000xiReadings st annotate
  else
    match sendCommand st "0" with
    | (.error e, st') => (.error e, st')
    | (.ok (responseCommand, response), st') =>
      if responseCommand = "0" then
        handleKacoStandardReadings st' response annotate
      else if responseCommand = "4" then
        query000xiReadings st' annotate
      else if responseCommand = "n" then
        handleGenericReadings st' response annotate
      else
        (.error (.protocol (.unexpectedCommandReadings responseCommand)), st')

/-- `query_serial_number`: send `"s"`, require the echo `"s"`, decode with
`FIELDS_SERIAL` and return the `serial_number` entry. -/
def querySerialNumber (st : ClientState) : Except PyError Value × ClientState :=
  match sendCommand st "s" with
  | (.error e, st') => (.error e, st')
  | (.ok (responseCommand, response), st') =>
    if ¬ responseCommand = "s" then
      (.error (.protocol (.unexpectedCommandSerial responseCommand)), st')
    else
      match parseFields st'.port FIELDS_SERIAL response false with
      | (.error e, port') => (.error e, { st' with port := port' })
      | (.ok dataDict, port') =>
        match dictGet dataDict "serial_number" with
        | some v => (.ok v, { st' with port := port' })
        | none => (.error (.keyError "serial_number"), { st' with port := port' })

/-! ## Concrete frames and states

The longer frames below are taken verbatim from the repository's test
suite (`tests/test_client.py`), so the theorems evaluating them also
check this embedding against the behaviour the tests pin down. -/

/-- Legacy frame whose stored checksum byte (97) equals the byte sum taken
strictly between the 5-byte start marker and the checksum field. -/
def c1SpecFrame : Bytes := [10, 42, 48, 49, 48, 32, 65, 32, 97]

/-- Variant of `c1SpecFrame` whose stored checksum byte (129) equals the
byte sum of indices 5 through 7 — the "strictly between" span under the
alternative reading that the checksum field is only the stored byte. -/
def c1SpecFrameB : Bytes := [10, 42, 48, 49, 48, 32, 65, 32, 129]

/-- The same frame with the checksum byte (60) the code actually computes:
the byte sum of `frame[1:8]` modulo 256. -/
def c1CodeFrame : Bytes := [10, 42, 48, 49, 48, 32, 65, 32, 60]

/-- Minimal generic-protocol tail: newline, space, the hex CRC16/X25 of the
single payload byte `[32]` (0xD17A), and the final carriage return. -/
def crcTinyFrame : Bytes := [10, 32] ++ strBytes "D17A" ++ [13]

/-- A 5-byte frame starting with newline and asterisk whose address and
command bytes are not ASCII-decodable. -/
def c7Frame : Bytes := [10, 42, 255, 254, 253]

/-- KACO standard legacy response frame (test suite, address 03,
checksum byte 0x92). -/
def legacyStdFrame : Bytes :=
  strBytes "\n*030   4 486.8  1.29   627 236.0  2.43   558  24   3401 " ++ [0x92] ++
  strBytes " 3600xi\r"

/-- Decoded record of `legacyStdFrame` under `FIELDS_SERIES_00_02`. -/
def legacyStdDict : Dict := [
  ("status", .int 4),
  ("dc_voltage", .float "486.8"),
  ("dc_current", .float "1.29"),
  ("dc_power", .int 627),
  ("ac_voltage", .float "236.0"),
  ("ac_current", .float "2.43"),
  ("ac_power", .int 558),
  ("device_temperature", .int 24),
  ("daily_yield", .int 3401),
  ("inverter_type", .str "3600xi")]

/-- Legacy XP response frame (test suite, address 03, checksum byte 0xb3);
the standard schema rejects it at `dc_current`. -/
def xpInferFrame : Bytes :=
  strBytes "\n*030   4 486.8 111.29 123627 236.1 123.45   1558 42   13401 " ++ [0xb3] ++
  strBytes " 100kTR 123456789\r"

/-- Decoded record of `xpInferFrame` under `FIELDS_SERIES_XP`. -/
def xpInferDict : Dict := [
  ("status", .int 4),
  ("dc_voltage", .float "486.8"),
  ("dc_current", .float "111.29"),
  ("dc_power", .int 123627),
  ("ac_voltage", .float "236.1"),
  ("ac_current", .float "123.45"),
  ("ac_power", .int 1558),
  ("device_temperature", .int 42),
  ("daily_yield", .int 13401),
  ("inverter_type", .str "100kTR"),
  ("total_yield", .int 123456789)]

/-- A fresh connection (no cached protocol family) at address 3 with an
idle transport. -/
def c2State : ClientState :=
  { address := 3, is000xi := false, inferredStandardFields := none,
    port := [], sent := [] }

/-- First chunk of the split-frame scenario (test suite, address 42): the
legacy checksum byte happens to be `\r`, so `read_until` stops there. -/
def splitChunk1 : Bytes :=
  strBytes "\n*420   4 699.9 999.99 999999 999.1 123.45   1558 42   13401 \r"

/-- Second chunk of the split-frame scenario. -/
def splitChunk2 : Bytes := strBytes " 100kTR 123456789\r"

/-- Fresh connection at address 42 whose transport delivers the split XP
frame in two chunks. -/
def splitState : ClientState :=
  { address := 42, is000xi := false, inferredStandardFields := none,
    port := [splitChunk1, splitChunk2], sent := [] }

/-- Decoded record of the reassembled split XP frame. -/
def splitDict : Dict := [
  ("status", .int 4),
  ("dc_voltage", .float "699.9"),
  ("dc_current", .float "999.99"),
  ("dc_power", .int 999999),
  ("ac_voltage", .float "999.1"),
  ("ac_current", .float "123.45"),
  ("ac_power", .int 1558),
  ("device_temperature", .int 42),
  ("daily_yield", .int 13401),
  ("inverter_type", .str "100kTR"),
  ("total_yield", .int 123456789)]

/-- Connection state after the split-frame query: both chunks consumed,
XP schema cached. -/
def splitFinalState : ClientState :=
  { address := 42, is000xi := false,
    inferredStandardFields := some FIELDS_SERIES_XP, port := [], sent := ["0"] }

/-- 000xi detection response (test suite, address 02, command echo 4). -/
def xiR0 : Bytes := strBytes "\n*024\r"

/-- 000xi sub-unit 1 response (test suite). -/
def xiR1 : Bytes :=
  strBytes "\n*021   4 186.8 11.29 123621 136.1 13.45   1558 12  13401 " ++ [0x23] ++
  strBytes "  8k1\r"

/-- 000xi sub-unit 2 response (test suite). -/
def xiR2 : Bytes :=
  strBytes "\n*022   5 286.8 21.29 223621 236.1 23.45   2558 22  23401 " ++ [0x2d] ++
  strBytes "  8k2\r"

/-- 000xi sub-unit 3 response (test suite). -/
def xiR3 : Bytes :=
  strBytes "\n*023   6 386.8 31.29 323621 336.1 33.45   3558 32  33401 " ++ [0x37] ++
  strBytes "  8k3\r"

/-- Fresh connection at address 2 whose transport scripts the full 000xi
exchange: detection response, then the three sub-unit frames. -/
def xiState : ClientState :=
  { address := 2, is000xi := false, inferredStandardFields := none,
    port := [xiR0, xiR1, xiR2, xiR3], sent := [] }

/-- The state of `xiState` right after `_send_command("0")` returned the
echo `"4"`. -/
def xiAfterSend : ClientState :=
  { address := 2, is000xi := false, inferredStandardFields := none,
    port := [xiR1, xiR2, xiR3], sent := ["0"] }

/-- Aggregated 000xi reading (test suite expectation). -/
def xiDict : Dict := [
  ("1_status", .int 4),
  ("1_dc_voltage", .float "186.8"),
  ("1_dc_current", .float "11.29"),
  ("1_dc_power", .int 123621),
  ("1_ac_voltage", .float "136.1"),
  ("1_ac_current", .float "13.45"),
  ("1_ac_power", .int 1558),
  ("1_device_temperature", .int 12),
  ("1_daily_yield", .int 13401),
  ("1_inverter_type", .str "8k1"),
  ("2_status", .int 5),
  ("2_dc_voltage", .float "286.8"),
  ("2_dc_current", .float "21.29"),
  ("2_dc_power", .int 223621),
  ("2_ac_voltage", .float "236.1"),
  ("2_ac_current", .float "23.45"),
  ("2_ac_power", .int 2558),
  ("2_device_temperature", .int 22),
  ("2_daily_yield", .int 23401),
  ("2_inverter_type", .str "8k2"),
  ("3_status", .int 6),
  ("3_dc_voltage", .float "386.8"),
  ("3_dc_current", .float "31.29"),
  ("3_dc_power", .int 323621),
  ("3_ac_voltage", .float "336.1"),
  ("3_ac_current", .float "33.45"),
  ("3_ac_power", .int 3558),
  ("3_device_temperature", .int 32),
  ("3_daily_yield", .int 33401),
  ("3_inverter_type", .str "8k3"),
  ("inverter_type", .str "3x8k")]

/-- Final state of the successful 000xi exchange: sticky `is000xi`. -/
def xiFinalState : ClientState :=
  { address := 2, is000xi := true, inferredStandardFields := none,
    port := [], sent := ["0", "1", "2", "3"] }

/-- Connection at address 2 that answers the `"0"` query with echo `"4"`
and then gives sub-unit 1 a response too short to decode. -/
def c5State : ClientState :=
  { address := 2, is000xi := false, inferredStandardFields := none,
    port := [strBytes "\n*024\r", strBytes "\n*021\r"], sent := [] }

/-- Envelope record whose declared element count (5) is wrong for the
resolvable inverter type `160TR` (which needs 20 + 3 elements). -/
def c6Dict : Dict := [("number_of_elements", .int 5), ("inverter_type", .str "160TR")]

/-- Sub-schema of the `160TR` model group (20 value fields). -/
def subfields331 : List VField :=
  buildMppFields 1 ++ buildMppFields 2 ++ buildMppFields 3 ++
  AC_FIELDS ++ COMMON_POWER_FIELDS ++ COMMON_MISC_FIELDS

/-- 000xi-classified connection at address 2 whose sub-unit query `"1"` is
answered with command echo `"2"`. -/
def c9State : ClientState :=
  { address := 2, is000xi := true, inferredStandardFields := none,
    port := [strBytes "\n*022\r"], sent := [] }

/-! ## Theorems -/

/-- Stripping leading null bytes does not change whether every byte is
below 128 (null itself is). -/
theorem all_dropWhile_zero (bs : Bytes) :
    ((bs.dropWhile (· = 0)).all (· < 128)) = bs.all (· < 128) := by
  induction bs with
  | nil => rfl
  | cons b rest ih =>
    by_cases hb : b = 0
    · subst hb
      simpa using ih
    · simp [List.dropWhile_cons, hb]

/-- Claim C1 (counterexample): a legacy frame whose stored checksum byte
equals the byte sum taken strictly between the 5-byte start marker and the
checksum field — under either reading of where that field begins (its
space delimiter at index 7, or the stored byte at index 8) — is
nevertheless rejected, because the code sums `frame[1 : position + 1]`,
which includes the `*`, address and command bytes of the start marker and
the checksum field's space delimiter. -/
theorem C1_counterexample :
    (c1SpecFrame.getD 8 0 = (byteSlice c1SpecFrame 5 7).sum % 256 ∧
      legacyChecksumFieldRead c1SpecFrame 7 =
        .error (.protocol (.checksumMismatch 97 60))) ∧
    (c1SpecFrameB.getD 8 0 = (byteSlice c1SpecFrameB 5 8).sum % 256 ∧
      legacyChecksumFieldRead c1SpecFrameB 7 =
        .error (.protocol (.checksumMismatch 129 60))) := by
  decide

/-- Claim C1 (amended): the legacy checksum is the byte sum, modulo 256, of
`frame[1 : position + 1]` — from immediately after the leading newline
(so including the rest of the start marker) up to and including the
checksum field's space delimiter — and given the structural prerequisites
the read succeeds iff the stored byte equals that sum; likewise the CRC
field checks CRC16/X25 over the same span `frame[1 : position + 1]`, and
given the structural prerequisites succeeds iff the stored hex value
equals that CRC. -/
theorem C1_amended :
    (∀ (frame : Bytes) (position : Nat),
      position + 2 ≤ frame.length → frame.getD position 0 = 32 →
      (legacyChecksumFieldRead frame position = .ok (position + 2) ↔
        frame.getD (position + 1) 0 = (byteSlice frame 1 (position + 1)).sum % 256)) ∧
    (∀ (frame : Bytes) (position : Nat) (h : Int),
      frame.length = position + 6 → frame.getD position 0 = 32 →
      storedCrc frame position = some h → frame.getD (position + 5) 0 = 13 →
      (crcAndStopFieldRead frame position = .ok none ↔
        h = (crc16x25 (byteSlice frame 1 (position + 1)) : Int))) := by
  constructor
  · intro frame position hlen hsp
    have h1 : ¬ frame.length < position + 2 := by omega
    simp only [legacyChecksumFieldRead, expectMinRemainingFrameLength, if_neg h1,
      expectChar, hsp, if_pos rfl]
    by_cases hc : (byteSlice frame 1 (position + 1)).sum % 256 =
        frame.getD (position + 1) 0
    · simp [hc]
    · simp only [if_pos hc]
      constructor
      · intro habs
        exact absurd habs (by simp)
      · intro heq
        exact absurd heq.symm hc
  · intro frame position h hlen hsp hst hcr
    have h1 : ¬ frame.length < position + 6 := by omega
    have h2 : ¬ frame.length > position + 6 := by omega
    simp only [crcAndStopFieldRead, expectMinRemainingFrameLength, if_neg h1,
      expectChar, hsp, if_pos rfl, hst, hcr, if_neg h2]
    by_cases hc : (crc16x25 (byteSlice frame 1 (position + 1)) : Int) = h
    · simp [hc]
    · simp only [if_pos hc]
      constructor
      · intro habs
        exact absurd habs (by simp)
      · intro heq
        exact absurd heq.symm hc

/-- Claim C1 (witness): the amended characterization applied to a concrete
accepted legacy frame and a concrete accepted CRC frame. -/
theorem C1_amended_witness :
    (legacyChecksumFieldRead c1CodeFrame 7 = .ok (7 + 2) ↔
      c1CodeFrame.getD (7 + 1) 0 = (byteSlice c1CodeFrame 1 (7 + 1)).sum % 256) ∧
    (crcAndStopFieldRead crcTinyFrame 1 = .ok none ↔
      (53626 : Int) = (crc16x25 (byteSlice crcTinyFrame 1 (1 + 1)) : Int)) :=
  ⟨C1_amended.1 c1CodeFrame 7 (by decide) (by decide),
   C1_amended.2 crcTinyFrame 1 53626 (by decide) (by decide) (by decide) (by decide)⟩

/-- Claim C4 (code evaluation): on a well-formed CRC-terminated frame the
`_CrcAndStopField.read` method succeeds but — having no `return`
statement — yields `None` rather than an integer cursor position, so no
run of it ever returns a position greater than the entry position. -/
theorem C4_no_position :
    crcAndStopFieldRead crcTinyFrame 1 = .ok none := by
  decide

/-- Claim C6: whenever the inverter type resolves to a sub-schema but the
declared element count is not the sub-schema length plus 3, the generic
payload read fails at once — before decoding any sub-field — with an
error carrying both the expected and the declared counts. -/
theorem C6_element_count :
    ∀ (frame : Bytes) (position : Nat) (destDict : Dict) (annotate : Bool)
      (n : Int) (t : Value) (subs : List VField),
    dictGet destDict "number_of_elements" = some (.int n) →
    dictGet destDict "inverter_type" = some t →
    resolveSubfields t = .ok subs →
    ¬ n = (subs.length + 3 : Int) →
    genericPayloadFieldRead frame position destDict annotate =
      .error (.protocol (.elementCountMismatch (subs.length + 3) t (.int n))) := by
  intro frame position destDict annotate n t subs hn ht hres hne
  simp only [genericPayloadFieldRead, hn, ht, hres]
  rw [if_pos (by simpa using hne)]

/-- Claim C6 (witness): declared count 5 against the resolvable type
`160TR`, whose sub-schema has 20 fields, fails with expected count 23. -/
theorem C6_witness :
    genericPayloadFieldRead [] 0 c6Dict false =
      .error (.protocol (.elementCountMismatch (subfields331.length + 3)
        (.str "160TR") (.int 5))) :=
  C6_element_count [] 0 c6Dict false 5 (.str "160TR") subfields331
    (by decide) (by decide) (by decide) (by decide)

/-- Claim C7 (code evaluation): the Start field accepts a frame whose
bytes at offsets 2 through 4 are not ASCII-decodable, because the check
decodes `frame[2:position]` with `position = 0`, an empty slice. -/
theorem C7_accepts_non_ascii :
    startFieldRead c7Frame 0 = .ok 5 ∧
    (byteSlice c7Frame 2 5).all (· < 128) = false := by
  decide

/-- Claim C8 (counterexample): the String field keeps trailing whitespace;
the bytes of `" ab "` parse to `"ab "`, not to the fully stripped
`"ab"`. -/
theorem C8_counterexample :
    stringFieldParse (strBytes " ab ") = .ok "ab " ∧ ("ab " == "ab") = false := by
  decide

/-- Claim C8 (amended): the String field fails iff some byte is not 7-bit
ASCII, and on success the value is the raw bytes with leading null bytes
stripped and leading (but not trailing) whitespace stripped. -/
theorem C8_amended :
    ∀ bs : Bytes,
    ((∃ s, stringFieldParse bs = .ok s) ↔ bs.all (· < 128) = true) ∧
    (∀ s, stringFieldParse bs = .ok s →
      s = String.mk (stripWsLeft ((bs.dropWhile (· = 0)).map Char.ofNat))) := by
  intro bs
  have hall := all_dropWhile_zero bs
  cases h : bs.all (· < 128) with
  | false =>
    have hp : stringFieldParse bs = .error (.protocol (.expectedAscii bs)) := by
      rw [stringFieldParse, decodeAscii, hall.trans h]
      simp
    constructor
    · simp [hp]
    · intro s hs
      rw [hp] at hs
      exact Except.noConfusion hs
  | true =>
    have hp : stringFieldParse bs =
        .ok (String.mk (stripWsLeft ((bs.dropWhile (· = 0)).map Char.ofNat))) := by
      rw [stringFieldParse, decodeAscii, hall.trans h]
      simp [bytesToString]
    constructor
    · exact ⟨fun _ => rfl, fun _ => ⟨_, hp⟩⟩
    · intro s hs
      exact (Except.ok.inj (hp.symm.trans hs)).symm

/-- Claim C8 (witness): the amended characterization applied to the bytes
of `" x"`. -/
theorem C8_amended_witness :
    ((∃ s, stringFieldParse (strBytes " x") = .ok s) ↔
      (strBytes " x").all (· < 128) = true) ∧
    "x" = String.mk (stripWsLeft (((strBytes " x").dropWhile (· = 0)).map
      Char.ofNat)) :=
  ⟨(C8_amended (strBytes " x")).1, (C8_amended (strBytes " x")).2 "x" (by decide)⟩

/-- Claim C9 (code evaluation): a 000xi sub-unit query answered with the
wrong command echo fails with a bare `AssertionError`, which is not the
`ProtocolException` failure surface. -/
theorem C9_assertion_escapes :
    (queryReadings c9State false).1 = .error .assertionError := by
  decide

/-- Claim C2: on a connection with a (non-empty) cached legacy schema, an
echo-`"0"` frame is decoded directly with that schema and the cache is
untouched; on an uncached connection, `FIELDS_SERIES_00_02` is attempted
first and cached on success; on a `ProtocolException` from that attempt,
`FIELDS_SERIES_XP` is attempted (against the transport state the first
attempt left) and cached on success; if both attempts fail nothing is
cached. -/
theorem C2_family_inference :
    (∀ (st : ClientState) (message : Bytes) (annotate : Bool) (fs : List Field),
      st.inferredStandardFields = some fs → ¬ fs = [] →
      handleKacoStandardReadings st message annotate =
        ((parseFields st.port fs message annotate).1,
          { st with port := (parseFields st.port fs message annotate).2 })) ∧
    (∀ (st : ClientState) (message : Bytes) (annotate : Bool) (d : Dict) (p' : Port),
      st.inferredStandardFields = none →
      parseFields st.port FIELDS_SERIES_00_02 message annotate = (.ok d, p') →
      handleKacoStandardReadings st message annotate =
        (.ok d,
          { st with port := p',
                    inferredStandardFields := some FIELDS_SERIES_00_02 })) ∧
    (∀ (st : ClientState) (message : Bytes) (annotate : Bool) (e : Err)
      (p' : Port) (d : Dict) (p'' : Port),
      st.inferredStandardFields = none →
      parseFields st.port FIELDS_SERIES_00_02 message annotate =
        (.error (.protocol e), p') →
      parseFields p' FIELDS_SERIES_XP message annotate = (.ok d, p'') →
      handleKacoStandardReadings st message annotate =
        (.ok d,
          { st with port := p'',
                    inferredStandardFields := some FIELDS_SERIES_XP })) ∧
    (∀ (st : ClientState) (message : Bytes) (annotate : Bool) (e : Err)
      (p' : Port) (e' : PyError) (p'' : Port),
      st.inferredStandardFields = none →
      parseFields st.port FIELDS_SERIES_00_02 message annotate =
        (.error (.protocol e), p') →
      parseFields p' FIELDS_SERIES_XP message annotate = (.error e', p'') →
      handleKacoStandardReadings st message annotate =
        (.error e', { st with port := p'' })) := by
  refine ⟨?_, ?_, ?_, ?_⟩
  · intro st message annotate fs hfs hne
    cases fs with
    | nil => exact absurd rfl hne
    | cons f rest =>
      rcases hp : parseFields st.port (f :: rest) message annotate with ⟨r, p⟩
      simp [handleKacoStandardReadings, hfs, hp]
  · intro st message annotate d p' hnone hstd
    simp [handleKacoStandardReadings, hnone, inferStandardFields, hstd]
  · intro st message annotate e p' d p'' hnone hstd hxp
    simp [handleKacoStandardReadings, hnone, inferStandardFields, hstd, hxp]
  · intro st message annotate e p' e' p'' hnone hstd hxp
    simp [handleKacoStandardReadings, hnone, inferStandardFields, hstd, hxp]

/-- Claim C2 (witness): on a fresh connection the standard-schema test
frame is decoded and `FIELDS_SERIES_00_02` cached; on a fresh connection
the XP test frame fails the standard attempt (precision check on
`dc_current`) and is decoded by the XP retry, which is then cached. -/
theorem C2_witness :
    handleKacoStandardReadings c2State legacyStdFrame false =
      (.ok legacyStdDict,
        { c2State with port := [],
                       inferredStandardFields := some FIELDS_SERIES_00_02 }) ∧
    handleKacoStandardReadings c2State xpInferFrame false =
      (.ok xpInferDict,
        { c2State with port := [],
                       inferredStandardFields := some FIELDS_SERIES_XP }) :=
  ⟨C2_family_inference.2.1 c2State legacyStdFrame false legacyStdDict []
      rfl (by decide),
   C2_family_inference.2.2.1 c2State xpInferFrame false
      (.precisionMismatch 2 "dc_current") [] xpInferDict []
      rfl (by decide) (by decide)⟩

/-- Popping one `read_until` result always leaves the transport queue's
tail. -/
theorem readUntil_snd (port : Port) : (readUntil port).2 = port.drop 1 := by
  cases port <;> rfl

/-- The parse loop consumes at most as many transport chunks as the field
list contains legacy checksum fields, and what remains is a tail of the
original queue. -/
theorem parseFieldsAux_port_suffix :
    ∀ (fields : List Field) (port : Port) (message : Bytes) (position : Option Nat)
      (d : Dict) (annotate : Bool),
    ∃ k, k ≤ fields.countP isLegacyChecksumField ∧
      (parseFieldsAux port fields message position d annotate).2 = port.drop k := by
  intro fields
  induction fields with
  | nil => exact fun port _ _ _ _ => ⟨0, Nat.le_refl 0, rfl⟩
  | cons f rest ih =>
    intro port message position d annotate
    cases position with
    | none => exact ⟨0, Nat.zero_le _, rfl⟩
    | some p =>
      cases hr : fieldRead f message p d annotate with
      | error e =>
        exact ⟨0, Nat.zero_le _, by simp [parseFieldsAux, hr]⟩
      | ok res =>
        obtain ⟨newPos, d'⟩ := res
        cases hcond : (newPos == some message.length) && isLegacyChecksumField f with
        | false =>
          obtain ⟨k, hk, hp⟩ := ih port message newPos d' annotate
          refine ⟨k, ?_, ?_⟩
          · rw [List.countP_cons]
            omega
          · simp [parseFieldsAux, hr, hcond, hp]
        | true =>
          have hf : isLegacyChecksumField f = true := by
            simp only [Bool.and_eq_true] at hcond
            exact hcond.2
          cases port with
          | nil =>
            obtain ⟨k, hk, hp⟩ := ih [] message newPos d' annotate
            refine ⟨k + 1, ?_, ?_⟩
            · simp [List.countP_cons, hf]
              omega
            · simp [parseFieldsAux, hr, hcond, readUntil]
              simpa using hp
          | cons c ps =>
            obtain ⟨k, hk, hp⟩ := ih ps (message ++ c) newPos d' annotate
            refine ⟨k + 1, ?_, ?_⟩
            · simp [List.countP_cons, hf]
              omega
            · simp [parseFieldsAux, hr, hcond, readUntil, hp]

/-- Claim C3: (1) the parse loop consumes at most one extra transport
chunk per legacy checksum field in the schema; (2) a schema without a
legacy checksum field never touches the transport; (3) after each
successfully read field, exactly when the returned cursor equals the
buffered frame length and the field was the legacy checksum, one
`read_until` result is appended to the buffer before the remaining fields
are parsed, and in every other case the buffer and transport are left
alone; (4) the repository's split-frame scenario: the XP frame delivered
in two chunks (checksum byte `\r`) is completed by exactly one extra read
and decodes to the full record. -/
theorem C3_split_recovery :
    (∀ (port : Port) (fields : List Field) (message : Bytes) (position : Option Nat)
      (d : Dict) (annotate : Bool),
      ∃ k, k ≤ fields.countP isLegacyChecksumField ∧
        (parseFieldsAux port fields message position d annotate).2 = port.drop k) ∧
    (∀ (port : Port) (fields : List Field) (message : Bytes) (position : Option Nat)
      (d : Dict) (annotate : Bool),
      fields.countP isLegacyChecksumField = 0 →
      (parseFieldsAux port fields message position d annotate).2 = port) ∧
    (∀ (port : Port) (field : Field) (rest : List Field) (message : Bytes) (p : Nat)
      (d : Dict) (annotate : Bool) (newPos : Option Nat) (d' : Dict),
      fieldRead field message p d annotate = .ok (newPos, d') →
      parseFieldsAux port (field :: rest) message (some p) d annotate =
        (if (newPos == some message.length) && isLegacyChecksumField field then
          parseFieldsAux (port.drop 1) rest (message ++ (readUntil port).1) newPos d'
            annotate
        else
          parseFieldsAux port rest message newPos d' annotate)) ∧
    queryReadings splitState false = (.ok splitDict, splitFinalState) := by
  refine ⟨fun port fields message position d annotate =>
    parseFieldsAux_port_suffix fields port message position d annotate,
    ?_, ?_, by decide⟩
  · intro port fields message position d annotate hc
    obtain ⟨k, hk, hp⟩ := parseFieldsAux_port_suffix fields port message position d
      annotate
    rw [hc] at hk
    have hk0 : k = 0 := Nat.le_zero.mp hk
    subst hk0
    simpa using hp
  · intro port field rest message p d annotate newPos d' hr
    cases port <;>
      cases hcond : (newPos == some message.length) && isLegacyChecksumField field <;>
      simp [parseFieldsAux, hr, hcond, readUntil]

/-- Claim C3 (witness): a concrete checksum field read that ends exactly
at the buffer length triggers the append (instantiating the step rule),
and a schema without a checksum field leaves the transport queue
untouched. -/
theorem C3_witness :
    parseFieldsAux [[13]] [.legacyChecksum, .legacyStop] c1CodeFrame (some 7) []
        false =
      (if ((some 9 : Option Nat) == some c1CodeFrame.length) &&
          isLegacyChecksumField .legacyChecksum then
        parseFieldsAux (([[13]] : Port).drop 1) [.legacyStop]
          (c1CodeFrame ++ (readUntil ([[13]] : Port)).1) (some 9) [] false
      else
        parseFieldsAux [[13]] [.legacyStop] c1CodeFrame (some 9) [] false) ∧
    (parseFieldsAux [[1, 2]] [.start] [] (some 0) [] false).2 = [[1, 2]] :=
  ⟨C3_split_recovery.2.2.1 [[13]] .legacyChecksum [.legacyStop] c1CodeFrame 7 []
      false (some 9) [] (by decide),
   C3_split_recovery.2.1 [[1, 2]] [.start] [] (some 0) [] false (by decide)⟩

/-- Sending a command appends exactly that command to the log of written
commands, whether or not the response validates. -/
theorem sendCommand_sent (st : ClientState) (c : String) :
    (sendCommand st c).2.sent = st.sent ++ [c] := by
  rcases st with ⟨addr, b0, o0, port, sent⟩
  cases port with
  | nil =>
    simp [sendCommand, readUntil]
  | cons r ps =>
    simp only [sendCommand, readUntil]
    split
    · rfl
    · split
      · rfl
      · split
        · rfl
        · split <;> rfl

/-- One 000xi sub-query appends exactly its index to the command log. -/
theorem query000xiStep_sent (st : ClientState) (annotate : Bool) (index : String)
    (d0 : Dict) :
    (query000xiStep st annotate index d0).2.sent = st.sent ++ [index] := by
  rcases hsc : sendCommand st index with ⟨r, st'⟩
  have hs : st'.sent = st.sent ++ [index] := by
    have h := sendCommand_sent st index
    rw [hsc] at h
    exact h
  cases r with
  | error e => simp [query000xiStep, hsc, hs]
  | ok rr =>
    obtain ⟨cmd, msg⟩ := rr
    by_cases hc : cmd = index
    · rcases hp : parseFields st'.port FIELDS_SERIES_000XI msg annotate with ⟨pr, port'⟩
      cases pr <;> simp [query000xiStep, hsc, hc, hp, hs]
    · simp [query000xiStep, hsc, hc, hs]

/-- The 000xi path writes an initial segment of the sub-unit commands
`1`, `2`, `3` (all three when it runs to completion, fewer when a
sub-query fails) and nothing else. -/
theorem query000xiReadings_sent (st : ClientState) (annotate : Bool) :
    ∃ k, k ≤ 3 ∧ (query000xiReadings st annotate).2.sent =
      st.sent ++ (["1", "2", "3"].take k) := by
  rcases h1 : query000xiStep st annotate "1" [] with ⟨r1, s1⟩
  have hs1 : s1.sent = st.sent ++ ["1"] := by
    have h := query000xiStep_sent st annotate "1" []
    rw [h1] at h
    exact h
  cases r1 with
  | error e =>
    exact ⟨1, by omega, by simp [query000xiReadings, h1, hs1]⟩
  | ok d1 =>
    rcases h2 : query000xiStep s1 annotate "2" d1 with ⟨r2, s2⟩
    have hs2 : s2.sent = st.sent ++ ["1", "2"] := by
      have h := query000xiStep_sent s1 annotate "2" d1
      rw [h2] at h
      rw [h, hs1, List.append_assoc]
      rfl
    cases r2 with
    | error e =>
      exact ⟨2, by omega, by simp [query000xiReadings, h1, h2, hs2]⟩
    | ok d2 =>
      rcases h3 : query000xiStep s2 annotate "3" d2 with ⟨r3, s3⟩
      have hs3 : s3.sent = st.sent ++ ["1", "2", "3"] := by
        have h := query000xiStep_sent s2 annotate "3" d2
        rw [h3] at h
        rw [h, hs2, List.append_assoc]
        rfl
      cases r3 with
      | error e =>
        exact ⟨3, by omega, by simp [query000xiReadings, h1, h2, h3, hs3]⟩
      | ok d3 =>
        refine ⟨3, by omega, ?_⟩
        cases hv : dictGet d3 "1_inverter_type" with
        | none => simp [query000xiReadings, h1, h2, h3, hv, hs3]
        | some v =>
          cases v <;> simp [query000xiReadings, h1, h2, h3, hv, hs3]

/-- When the 000xi path returns a reading, the final state has the 000xi
flag cached. -/
theorem query000xiReadings_ok_is000xi (st : ClientState) (annotate : Bool)
    (d : Dict) (st' : ClientState)
    (h : query000xiReadings st annotate = (.ok d, st')) : st'.is000xi = true := by
  unfold query000xiReadings at h
  rcases h1 : query000xiStep st annotate "1" [] with ⟨r1, s1⟩
  rw [h1] at h
  cases r1 with
  | error e => simp at h
  | ok d1 =>
    dsimp only at h
    rcases h2 : query000xiStep s1 annotate "2" d1 with ⟨r2, s2⟩
    rw [h2] at h
    cases r2 with
    | error e => simp at h
    | ok d2 =>
      dsimp only at h
      rcases h3 : query000xiStep s2 annotate "3" d2 with ⟨r3, s3⟩
      rw [h3] at h
      cases r3 with
      | error e => simp at h
      | ok d3 =>
        dsimp only at h
        cases hv : dictGet d3 "1_inverter_type" with
        | none => rw [hv] at h; simp at h
        | some v =>
          rw [hv] at h
          cases v with
          | str s =>
            dsimp only at h
            simp only [Prod.mk.injEq] at h
            rw [← h.2]
          | int n => simp at h
          | float s => simp at h
          | annotated v q de => simp at h

/-- Claim C5 (counterexample): a fresh connection whose `"0"` query is
echoed with `"4"` but whose first sub-unit response is too short does not
cache the 000xi state — the flag is set only after all three sub-queries
succeed. -/
theorem C5_counterexample :
    (sendCommand c5State "0").1 = .ok ("4", strBytes "\n*024\r") ∧
    (queryReadings c5State false).1 = .error (.protocol .endOfFrame) ∧
    (queryReadings c5State false).2.is000xi = false := by
  decide

/-- Claim C5 (amended): once the 000xi state is cached, `query_readings`
goes straight to the 000xi path, which writes only (an initial segment of)
the sub-unit commands `1`, `2`, `3` — never the single-frame `"0"` query;
an echo `"4"` on an unclassified connection routes to the 000xi path, and
whenever that path returns a reading the 000xi state is cached. -/
theorem C5_amended :
    (∀ (st : ClientState) (annotate : Bool), st.is000xi = true →
      queryReadings st annotate = query000xiReadings st annotate) ∧
    (∀ (st : ClientState) (annotate : Bool),
      ∃ k, k ≤ 3 ∧ (query000xiReadings st annotate).2.sent =
        st.sent ++ (["1", "2", "3"].take k)) ∧
    (∀ k : Nat, (["1", "2", "3"].take k).contains "0" = false) ∧
    (∀ (st : ClientState) (annotate : Bool) (d : Dict) (st' : ClientState),
      query000xiReadings st annotate = (.ok d, st') → st'.is000xi = true) ∧
    (∀ (st : ClientState) (annotate : Bool) (cmd : String) (response : Bytes)
      (st' : ClientState),
      st.is000xi = false →
      sendCommand st "0" = (.ok (cmd, response), st') → cmd = "4" →
      queryReadings st annotate = query000xiReadings st' annotate) := by
  refine ⟨?_, query000xiReadings_sent, ?_, query000xiReadings_ok_is000xi, ?_⟩
  · intro st annotate h
    simp [queryReadings, h]
  · intro k
    rcases k with _ | _ | _ | k
    · decide
    · decide
    · decide
    · rw [List.take_of_length_le (by simp)]
      decide
  · intro st annotate cmd response st' h0 hsend hcmd
    subst hcmd
    simp [queryReadings, h0, hsend]

/-- Claim C5 (witness): on the scripted 000xi exchange the echo `"4"`
routes to the 000xi path, the successful path caches the flag, and a
subsequent query on the cached state goes straight to the 000xi path. -/
theorem C5_witness :
    queryReadings xiState false = query000xiReadings xiAfterSend false ∧
    xiFinalState.is000xi = true ∧
    queryReadings xiFinalState false = query000xiReadings xiFinalState false :=
  ⟨C5_amended.2.2.2.2 xiState false "4" xiR0 xiAfterSend rfl (by decide) rfl,
   C5_amended.2.2.2.1 xiAfterSend false xiDict xiFinalState (by decide),
   C5_amended.1 xiFinalState false rfl⟩

/-- A `query_serial_number` call started with any values of the two
protocol-family caches produces the same result and the same transport
and log effects, with those cache values passed through untouched. -/
theorem querySerialNumber_cache (st : ClientState) (b : Bool)
    (o : Option (List Field)) :
    querySerialNumber { st with is000xi := b, inferredStandardFields := o } =
      ((querySerialNumber st).1,
        { (querySerialNumber st).2 with is000xi := b,
                                        inferredStandardFields := o }) := by
  rcases st with ⟨addr, b0, o0, port, sent⟩
  cases port with
  | nil => rfl
  | cons r ps =>
    by_cases hl : (r : Bytes).length < 5
    · simp [querySerialNumber, sendCommand, readUntil, hl]
    · cases hda : decodeAscii (r.take 5) with
      | none => simp [querySerialNumber, sendCommand, readUntil, hl, hda]
      | some header =>
        cases hpi : pyIntOfChars (List.take 2 (List.drop 2 header.data)) with
        | none => simp [querySerialNumber, sendCommand, readUntil, hl, hda, hpi]
        | some address =>
          by_cases haddr : address = addr
          · by_cases hcm : String.mk (List.take 1 (List.drop 4 header.data)) = "s"
            · rcases hp : parseFields ps FIELDS_SERIAL r false with ⟨pr, port'⟩
              cases pr with
              | error e =>
                simp [querySerialNumber, sendCommand, readUntil, hl, hda, hpi,
                  haddr, hcm, hp]
              | ok pd =>
                cases hdg : dictGet pd "serial_number" with
                | none =>
                  simp [querySerialNumber, sendCommand, readUntil, hl, hda, hpi,
                    haddr, hcm, hp, hdg]
                | some v =>
                  simp [querySerialNumber, sendCommand, readUntil, hl, hda, hpi,
                    haddr, hcm, hp, hdg]
            · simp [querySerialNumber, sendCommand, readUntil, hl, hda, hpi,
                haddr, hcm]
          · simp [querySerialNumber, sendCommand, readUntil, hl, hda, hpi, haddr]

/-- Claim C10: `query_serial_number` neither reads nor writes the
connection's protocol-family caches — its result is the same for every
value of the 000xi flag and of the memoized legacy schema, and both caches
come out exactly as they went in, on success and on failure alike. -/
theorem C10_serial_cache_independent :
    ∀ (st : ClientState) (b : Bool) (o : Option (List Field)),
    querySerialNumber { st with is000xi := b, inferredStandardFields := o } =
      ((querySerialNumber st).1,
        { (querySerialNumber st).2 with is000xi := b,
                                        inferredStandardFields := o }) ∧
    (querySerialNumber st).2.is000xi = st.is000xi ∧
    (querySerialNumber st).2.inferredStandardFields = st.inferredStandardFields := by
  intro st b o
  have he :
      ({ st with
          is000xi := st.is000xi,
          inferredStandardFields := st.inferredStandardFields } : ClientState) = st :=
    rfl
  have h := querySerialNumber_cache st st.is000xi st.inferredStandardFields
  rw [he] at h
  refine ⟨querySerialNumber_cache st b o, ?_, ?_⟩
  · have h2 := congrArg (fun x => x.2.is000xi) h
    simpa using h2
  · have h2 := congrArg (fun x => x.2.inferredStandardFields) h
    simpa using h2

end Kaco
